import Mathlib

/-!
Shallow embedding of the two request handlers of the repository
(`src/app.py`, the Flask process variant, and `src/lambda_function.py`,
the AWS Lambda function variant).

External collaborators (the Azure chat-completions client, the Bedrock
`invoke_model` call together with its response unwrapping, the JSON parse
of a raw body string, and the PyPDF2 page reader) are passed in as
function parameters of type `... → Except String ...`: `Except.ok`
models a normal return, `Except.error e` models a raised exception whose
`str(e)` is `e`.  Handlers additionally return the list of calls they
made to the model-inference collaborator, so that claims of the form
"the collaborator is never invoked" are statable.
-/

/-- A JSON value as it occurs in the handlers' response bodies: the only
value shapes the source ever puts in a response object are strings and
the boolean `True`. -/
inductive JVal where
  | s (v : String)
  | b (v : Bool)
deriving DecidableEq, Repr

/-- A parsed JSON request object, restricted to string-valued fields
(the only shape the claims quantify over). -/
abbrev ReqObj := List (String × String)

/-- A JSON response object, as handed to `jsonify` / `json.dumps`. -/
abbrev RespObj := List (String × JVal)

/-- Python `dict.get(k, dflt)` on a parsed request object. -/
def rget (d : ReqObj) (k dflt : String) : String :=
  match d.find? (fun p => p.1 == k) with
  | some p => p.2
  | none => dflt

/-- Field lookup in a response object (`some` iff the field is present). -/
def jfield (o : RespObj) (k : String) : Option JVal :=
  (o.find? (fun p => p.1 == k)).map Prod.snd

/-- Header lookup in a response header list. -/
def hfield (hs : List (String × String)) (k : String) : Option String :=
  (hs.find? (fun p => p.1 == k)).map Prod.snd

/-- Python `str.strip()`: drop whitespace characters from both ends. -/
def pyStrip (s : String) : String :=
  ⟨((s.data.dropWhile Char.isWhitespace).reverse.dropWhile
      Char.isWhitespace).reverse⟩

/-- The request field `k` is the empty string or absent
(`data.get(k, '') == ''` in Python terms). -/
abbrev missingOrEmpty (d : ReqObj) (k : String) : Prop :=
  rget d k "" = ""

/-- `s` contains `sub` as a contiguous substring. -/
def containsStr (s sub : String) : Prop :=
  ∃ pre post, s = pre ++ sub ++ post

/-- A response body holds exactly one of the two shapes: an `answer`
field and no `error` field, or an `error` field and no `answer` field. -/
def exactlyOneShape (o : RespObj) : Prop :=
  ((jfield o "answer").isSome = true ∧ jfield o "error" = none) ∨
  ((jfield o "error").isSome = true ∧ jfield o "answer" = none)

/-! ## Process variant: `src/app.py` -/

/-- The designated insufficient-information fallback instruction of the
process variant (part of `system_prompt` in `chat_with_phi4_rag`,
src/app.py line 89). -/
def appFallback : String := "If the context doesn\x27t help, say so."

/-- The system prompt built by `chat_with_phi4_rag` (src/app.py lines
85-90); the concatenation reproduces the source f-string exactly. -/
def system_prompt (retrieved_doc : String) : String :=
  "You are Phi-4, helpful fitness AI.\n" ++
  "We have some context from the user\x27s knowledge base: \n" ++
  retrieved_doc ++ "\n" ++
  "Please use this context to help your answer. " ++ appFallback ++ "\n"

/-- The process-wide state of app.py: whether the global
`project_client` is initialized (`None` ↔ `false`). -/
structure AppState where
  project_client : Bool
deriving DecidableEq

/-- A Flask response: a `jsonify`-ed body plus an HTTP status code. -/
structure FlaskResp where
  body : RespObj
  status : Nat
deriving DecidableEq, Repr

/-- `chat_with_phi4_rag(user_question, retrieved_doc)` (src/app.py lines
78-105).  `complete sys usr` models
`chat_client.complete(model=…, messages=[SystemMessage(sys), UserMessage(usr)], …)`
returning `response.choices[0].message.content` on success or raising.
The second component of the result is the list of `(system, user)`
message pairs actually sent to the model. -/
def chat_with_phi4_rag (st : AppState)
    (complete : String → String → Except String String)
    (user_question retrieved_doc : String) : String × List (String × String) :=
  if st.project_client = false then
    ("Error: Azure AI Project client not initialized", [])
  else
    match complete (system_prompt retrieved_doc) user_question with
    | Except.ok content =>
        (content, [(system_prompt retrieved_doc, user_question)])
    | Except.error e =>
        ("Error communicating with Azure AI Project: " ++ e,
         [(system_prompt retrieved_doc, user_question)])

/-- The `POST /ask-question` handler (src/app.py lines 149-168).
`parsed` models `request.get_json()`: `Except.error e` is a raised
parse exception (caught by the handler's `except` and turned into a
`500`), `Except.ok data` a successfully parsed JSON object. -/
def ask_question (st : AppState)
    (complete : String → String → Except String String)
    (parsed : Except String ReqObj) : FlaskResp × List (String × String) :=
  match parsed with
  | Except.error e => (⟨[("error", JVal.s e)], 500⟩, [])
  | Except.ok data =>
    let pdf_text := rget data "context" ""
    let question := rget data "question" ""
    if pdf_text = "" ∨ question = "" then
      (⟨[("error", JVal.s "Missing context or question")], 400⟩, [])
    else
      let r := chat_with_phi4_rag st complete question pdf_text
      (⟨[("answer", JVal.s r.1), ("success", JVal.b true)], 200⟩, r.2)

/-- `allowed_file(filename)` (src/app.py lines 107-108):
`'.' in filename and filename.rsplit('.', 1)[1].lower() == 'pdf'`. -/
def allowed_file (filename : String) : Bool :=
  filename.data.contains '.' &&
  ((filename.data.reverse.takeWhile (fun c => c != '.')).reverse.map
      Char.toLower == "pdf".data)

/-- `extract_text_from_pdf(file)` (src/app.py lines 110-118).
`reader` models `PyPDF2.PdfReader` plus per-page `extract_text`:
`Except.ok pages` yields the pages' texts, `Except.error e` a raised
exception; the page loop concatenates the page texts onto `""`. -/
def extract_text_from_pdf (reader : List Nat → Except String (List String))
    (file : List Nat) : String :=
  match reader file with
  | Except.ok pages => pages.foldl (fun t p => t ++ p) ""
  | Except.error e => "Error extracting text: " ++ e

/-- An uploaded file: `request.files['file']` with its filename and raw
bytes. -/
structure FileUpload where
  filename : String
  content : List Nat
deriving DecidableEq

/-- The `POST /upload-pdf` handler (src/app.py lines 124-147).  `file`
is `none` when `'file' not in request.files`.  The handler's inner
`try/except` can only catch exceptions raised between `file.read()` and
`jsonify`; since `extract_text_from_pdf` itself never raises (it returns
error text as its result), that `except` branch is unreachable here. -/
def upload_pdf (reader : List Nat → Except String (List String))
    (file : Option FileUpload) : FlaskResp :=
  match file with
  | none => ⟨[("error", JVal.s "No file part")], 400⟩
  | some f =>
    if f.filename = "" then
      ⟨[("error", JVal.s "No selected file")], 400⟩
    else if allowed_file f.filename then
      ⟨[("success", JVal.b true),
        ("text", JVal.s (extract_text_from_pdf reader f.content))], 200⟩
    else
      ⟨[("error", JVal.s "Invalid file type")], 400⟩

/-! ## Function variant: `src/lambda_function.py` -/

/-- The designated insufficient-information fallback instruction of the
function variant (src/lambda_function.py line 41). -/
def lambdaFallback : String :=
  "I don\x27t have enough information to answer this question"

/-- `prompt_data` (src/lambda_function.py lines 40-47); the
concatenation reproduces the source f-string exactly. -/
def prompt_data (pdf_text question : String) : String :=
  "Answer the question based only on the information provided between ##.\n" ++
  "Only answer the question if you can find relevant information in the context, otherwise, answer \"" ++
  lambdaFallback ++ "\".\n" ++
  "#\n" ++ pdf_text ++ "\n#\n\nQuestion: " ++ question ++ "\nAnswer:"

/-- A Lambda proxy event: the `httpMethod` and raw `body` entries of
the event dict (absent key ↔ `none`). -/
structure LambdaEvent where
  httpMethod : Option String
  body : Option String
deriving DecidableEq

/-- A Lambda response body: the raw empty string of the preflight
response, or a `json.dumps`-ed object. -/
inductive BodyV where
  | raw (v : String)
  | obj (o : RespObj)
deriving DecidableEq, Repr

/-- A Lambda proxy response envelope. -/
structure LambdaResp where
  statusCode : Nat
  headers : List (String × String)
  body : BodyV
deriving DecidableEq, Repr

/-- Headers of the OPTIONS preflight response
(src/lambda_function.py lines 13-17). -/
def preflightHeaders : List (String × String) :=
  [("Access-Control-Allow-Origin", "*"),
   ("Access-Control-Allow-Headers", "Content-Type"),
   ("Access-Control-Allow-Methods", "POST,OPTIONS")]

/-- Headers of every non-preflight response
(src/lambda_function.py lines 32-35 and alike). -/
def corsJsonHeaders : List (String × String) :=
  [("Access-Control-Allow-Origin", "*"),
   ("Content-Type", "application/json")]

/-- `json.loads(event.get('body', '\x7b\x7d'))`
(src/lambda_function.py line 23): an absent `body` key parses as the
empty object; a present one goes through the JSON parser `parse`, whose
failure models the raised `JSONDecodeError`. -/
def lambdaParsedBody (parse : String → Except String ReqObj)
    (event : LambdaEvent) : Except String ReqObj :=
  match event.body with
  | none => Except.ok []
  | some s => parse s

/-- `lambda_handler(event, context)` (src/lambda_function.py lines
5-96).  `invoke_model p` models `bedrock.invoke_model` on prompt `p`
with the fixed Titan parameters, together with the response unwrapping
`json.loads(response.get("body").read()).get("results")[0].get("outputText")`
(lines 64-73): `Except.ok t` is the extracted `outputText`,
`Except.error e` any exception raised in that span.  The second
component of the result is the list of prompts sent to Bedrock. -/
def lambda_handler (parse : String → Except String ReqObj)
    (invoke_model : String → Except String String)
    (event : LambdaEvent) : LambdaResp × List String :=
  if event.httpMethod = some "OPTIONS" then
    (⟨200, preflightHeaders, BodyV.raw ""⟩, [])
  else
    match lambdaParsedBody parse event with
    | Except.error e =>
        (⟨500, corsJsonHeaders, BodyV.obj [("error", JVal.s e)]⟩, [])
    | Except.ok body =>
      let pdf_text := rget body "context" ""
      let question := rget body "question" ""
      if pdf_text = "" ∨ question = "" then
        (⟨400, corsJsonHeaders,
          BodyV.obj [("error", JVal.s "Missing context or question")]⟩, [])
      else
        let p := prompt_data pdf_text question
        match invoke_model p with
        | Except.ok answer =>
            (⟨200, corsJsonHeaders,
              BodyV.obj [("answer", JVal.s (pyStrip answer))]⟩, [p])
        | Except.error e =>
            (⟨500, corsJsonHeaders, BodyV.obj [("error", JVal.s e)]⟩, [p])

/-! ## Claims -/

/-- C1: for every request to the ask-question operation (either variant)
in which the `context` field or the `question` field is the empty string
or absent, the handler returns a 400 result whose body has an `error`
field, and the model-inference collaborator is never invoked (the call
log is empty). -/
theorem C1_missing_field_rejected
    (st : AppState) (complete : String → String → Except String String)
    (parse : String → Except String ReqObj)
    (invoke_model : String → Except String String)
    (data : ReqObj) (event : LambdaEvent)
    (hdata : missingOrEmpty data "context" ∨ missingOrEmpty data "question")
    (hm : event.httpMethod ≠ some "OPTIONS")
    (hb : lambdaParsedBody parse event = Except.ok data) :
    ask_question st complete (Except.ok data) =
      (⟨[("error", JVal.s "Missing context or question")], 400⟩, []) ∧
    lambda_handler parse invoke_model event =
      (⟨400, corsJsonHeaders,
        BodyV.obj [("error", JVal.s "Missing context or question")]⟩, []) := by
  constructor
  · simp only [ask_question]
    rw [if_pos hdata]
  · simp only [lambda_handler, hb, if_neg hm]
    rw [if_pos hdata]

/-- Witness for C1 at a concrete input: the `question` field is absent. -/
theorem C1_missing_field_rejected_witness :
    (missingOrEmpty [("context", "The gym opens at 6am.")] "question" ∧
      (⟨some "POST", some "x"⟩ : LambdaEvent).httpMethod ≠ some "OPTIONS" ∧
      lambdaParsedBody (fun _ => Except.ok [("context", "The gym opens at 6am.")])
        ⟨some "POST", some "x"⟩ = Except.ok [("context", "The gym opens at 6am.")]) ∧
    ask_question ⟨true⟩ (fun _ _ => Except.ok "6am")
        (Except.ok [("context", "The gym opens at 6am.")]) =
      (⟨[("error", JVal.s "Missing context or question")], 400⟩, []) ∧
    lambda_handler (fun _ => Except.ok [("context", "The gym opens at 6am.")])
        (fun _ => Except.ok "6am") ⟨some "POST", some "x"⟩ =
      (⟨400, corsJsonHeaders,
        BodyV.obj [("error", JVal.s "Missing context or question")]⟩, []) :=
  ⟨⟨by decide, by decide, rfl⟩,
   C1_missing_field_rejected ⟨true⟩ (fun _ _ => Except.ok "6am")
     (fun _ => Except.ok [("context", "The gym opens at 6am.")])
     (fun _ => Except.ok "6am") [("context", "The gym opens at 6am.")]
     ⟨some "POST", some "x"⟩ (Or.inr (by decide)) (by decide) rfl⟩

/-- C2 is false as stated: in the process variant a failing collaborator
does NOT produce a 500 result with an `error` field.  At the concrete
input `{context: "c", question: "q"}` with the collaborator raising
`"boom"`, `ask_question` returns status 200 and a body with no `error`
field (the error text ends up inside the `answer` field). -/
theorem C2_counterexample :
    (ask_question ⟨true⟩ (fun _ _ => Except.error "boom")
        (Except.ok [("context", "c"), ("question", "q")])).1.status = 200 ∧
    jfield (ask_question ⟨true⟩ (fun _ _ => Except.error "boom")
        (Except.ok [("context", "c"), ("question", "q")])).1.body "error" = none ∧
    jfield (ask_question ⟨true⟩ (fun _ _ => Except.error "boom")
        (Except.ok [("context", "c"), ("question", "q")])).1.body "answer" =
      some (JVal.s "Error communicating with Azure AI Project: boom") := by
  decide

/-- C2 amended: on a well-formed request with a failing collaborator,
the function variant returns 500 with the exception message in the
`error` field, while the process variant catches the exception inside
`chat_with_phi4_rag` and returns a 200 success response whose `answer`
field is `"Error communicating with Azure AI Project: " ++ msg`,
with no `error` field. -/
theorem C2_infer_failure
    (st : AppState) (complete : String → String → Except String String)
    (parse : String → Except String ReqObj)
    (invoke_model : String → Except String String)
    (data : ReqObj) (event : LambdaEvent) (e eL : String)
    (hst : st.project_client = true)
    (hc : rget data "context" "" ≠ "")
    (hq : rget data "question" "" ≠ "")
    (hcomp : complete (system_prompt (rget data "context" ""))
        (rget data "question" "") = Except.error e)
    (hm : event.httpMethod ≠ some "OPTIONS")
    (hb : lambdaParsedBody parse event = Except.ok data)
    (hinv : invoke_model (prompt_data (rget data "context" "")
        (rget data "question" "")) = Except.error eL) :
    ask_question st complete (Except.ok data) =
      (⟨[("answer",
          JVal.s ("Error communicating with Azure AI Project: " ++ e)),
         ("success", JVal.b true)], 200⟩,
       [(system_prompt (rget data "context" ""), rget data "question" "")]) ∧
    lambda_handler parse invoke_model event =
      (⟨500, corsJsonHeaders, BodyV.obj [("error", JVal.s eL)]⟩,
       [prompt_data (rget data "context" "") (rget data "question" "")]) := by
  constructor
  · simp only [ask_question]
    rw [if_neg (not_or.mpr ⟨hc, hq⟩)]
    simp [chat_with_phi4_rag, hst, hcomp]
  · simp only [lambda_handler, hb, if_neg hm]
    rw [if_neg (not_or.mpr ⟨hc, hq⟩)]
    simp [hinv]

/-- Witness for the amended C2 at a concrete input. -/
theorem C2_infer_failure_witness :
    ((⟨true⟩ : AppState).project_client = true ∧
      rget [("context", "c"), ("question", "q")] "context" "" ≠ "" ∧
      rget [("context", "c"), ("question", "q")] "question" "" ≠ "") ∧
    ask_question ⟨true⟩ (fun _ _ => Except.error "boom")
        (Except.ok [("context", "c"), ("question", "q")]) =
      (⟨[("answer",
          JVal.s ("Error communicating with Azure AI Project: " ++ "boom")),
         ("success", JVal.b true)], 200⟩,
       [(system_prompt "c", "q")]) ∧
    lambda_handler (fun _ => Except.ok [("context", "c"), ("question", "q")])
        (fun _ => Except.error "down") ⟨some "POST", some "x"⟩ =
      (⟨500, corsJsonHeaders, BodyV.obj [("error", JVal.s "down")]⟩,
       [prompt_data "c" "q"]) :=
  ⟨⟨rfl, by decide, by decide⟩,
   C2_infer_failure ⟨true⟩ (fun _ _ => Except.error "boom")
     (fun _ => Except.ok [("context", "c"), ("question", "q")])
     (fun _ => Except.error "down")
     [("context", "c"), ("question", "q")] ⟨some "POST", some "x"⟩
     "boom" "down" rfl (by decide) (by decide) rfl (by decide) rfl rfl⟩

/-- C3 is false as stated: the process variant does not trim the
generated string.  With the collaborator stubbed to return `" 6am "`,
`ask_question` puts the untrimmed `" 6am "` in the `answer` field,
whereas the trimmed value would be `"6am"`. -/
theorem C3_counterexample :
    jfield (ask_question ⟨true⟩ (fun _ _ => Except.ok " 6am ")
        (Except.ok [("context", "c"), ("question", "q")])).1.body "answer" =
      some (JVal.s " 6am ") ∧
    pyStrip " 6am " = "6am" ∧
    jfield (ask_question ⟨true⟩ (fun _ _ => Except.ok " 6am ")
        (Except.ok [("context", "c"), ("question", "q")])).1.body "answer" ≠
      some (JVal.s (pyStrip " 6am ")) := by
  decide

/-- C3 amended: on a well-formed request with the collaborator stubbed
to return a fixed string, the function variant's `answer` field is that
string with surrounding whitespace stripped, while the process variant's
`answer` field is that string verbatim (no trimming). -/
theorem C3_fixed_answer
    (st : AppState) (complete : String → String → Except String String)
    (parse : String → Except String ReqObj)
    (invoke_model : String → Except String String)
    (data : ReqObj) (event : LambdaEvent) (fixed : String)
    (hst : st.project_client = true)
    (hc : rget data "context" "" ≠ "")
    (hq : rget data "question" "" ≠ "")
    (hcomp : complete (system_prompt (rget data "context" ""))
        (rget data "question" "") = Except.ok fixed)
    (hm : event.httpMethod ≠ some "OPTIONS")
    (hb : lambdaParsedBody parse event = Except.ok data)
    (hinv : invoke_model (prompt_data (rget data "context" "")
        (rget data "question" "")) = Except.ok fixed) :
    ask_question st complete (Except.ok data) =
      (⟨[("answer", JVal.s fixed), ("success", JVal.b true)], 200⟩,
       [(system_prompt (rget data "context" ""), rget data "question" "")]) ∧
    lambda_handler parse invoke_model event =
      (⟨200, corsJsonHeaders, BodyV.obj [("answer", JVal.s (pyStrip fixed))]⟩,
       [prompt_data (rget data "context" "") (rget data "question" "")]) := by
  constructor
  · simp only [ask_question]
    rw [if_neg (not_or.mpr ⟨hc, hq⟩)]
    simp [chat_with_phi4_rag, hst, hcomp]
  · simp only [lambda_handler, hb, if_neg hm]
    rw [if_neg (not_or.mpr ⟨hc, hq⟩)]
    simp [hinv]

/-- Witness for the amended C3 at a concrete input. -/
theorem C3_fixed_answer_witness :
    ((⟨true⟩ : AppState).project_client = true ∧
      rget [("context", "c"), ("question", "q")] "context" "" ≠ "" ∧
      rget [("context", "c"), ("question", "q")] "question" "" ≠ "") ∧
    ask_question ⟨true⟩ (fun _ _ => Except.ok " 6am ")
        (Except.ok [("context", "c"), ("question", "q")]) =
      (⟨[("answer", JVal.s " 6am "), ("success", JVal.b true)], 200⟩,
       [(system_prompt "c", "q")]) ∧
    lambda_handler (fun _ => Except.ok [("context", "c"), ("question", "q")])
        (fun _ => Except.ok " 6am ") ⟨some "POST", some "x"⟩ =
      (⟨200, corsJsonHeaders, BodyV.obj [("answer", JVal.s (pyStrip " 6am "))]⟩,
       [prompt_data "c" "q"]) :=
  ⟨⟨rfl, by decide, by decide⟩,
   C3_fixed_answer ⟨true⟩ (fun _ _ => Except.ok " 6am ")
     (fun _ => Except.ok [("context", "c"), ("question", "q")])
     (fun _ => Except.ok " 6am ")
     [("context", "c"), ("question", "q")] ⟨some "POST", some "x"⟩
     " 6am " rfl (by decide) (by decide) rfl (by decide) rfl rfl⟩

/-- C4 is false as stated: with the client uninitialized,
`chat_with_phi4_rag` returns an ordinary string (a success value in the
adapter's eyes), and `ask_question` surfaces it as a 200 success
response with no `error` field — not as a 500/generic error response. -/
theorem C4_counterexample :
    chat_with_phi4_rag ⟨false⟩ (fun _ _ => Except.ok "fine") "q" "c" =
      ("Error: Azure AI Project client not initialized", []) ∧
    (ask_question ⟨false⟩ (fun _ _ => Except.ok "fine")
        (Except.ok [("context", "c"), ("question", "q")])).1.status = 200 ∧
    jfield (ask_question ⟨false⟩ (fun _ _ => Except.ok "fine")
        (Except.ok [("context", "c"), ("question", "q")])).1.body "error" =
      none := by
  decide

/-- C4 amended: with the client uninitialized, `chat_with_phi4_rag`
returns the sentinel string
`"Error: Azure AI Project client not initialized"` as its ordinary
return value without invoking the collaborator, and `ask_question`
surfaces it as a 200 success response whose `answer` field is that
sentinel string (no `error` field, no 500). -/
theorem C4_uninitialized
    (st : AppState) (complete : String → String → Except String String)
    (data : ReqObj)
    (hst : st.project_client = false)
    (hc : rget data "context" "" ≠ "")
    (hq : rget data "question" "" ≠ "") :
    chat_with_phi4_rag st complete (rget data "question" "")
        (rget data "context" "") =
      ("Error: Azure AI Project client not initialized", []) ∧
    ask_question st complete (Except.ok data) =
      (⟨[("answer", JVal.s "Error: Azure AI Project client not initialized"),
         ("success", JVal.b true)], 200⟩, []) := by
  have hchat : chat_with_phi4_rag st complete (rget data "question" "")
      (rget data "context" "") =
      ("Error: Azure AI Project client not initialized", []) := by
    simp [chat_with_phi4_rag, hst]
  refine ⟨hchat, ?_⟩
  simp only [ask_question]
  rw [if_neg (not_or.mpr ⟨hc, hq⟩)]
  rw [hchat]

/-- Witness for the amended C4 at a concrete input. -/
theorem C4_uninitialized_witness :
    ((⟨false⟩ : AppState).project_client = false ∧
      rget [("context", "c"), ("question", "q")] "context" "" ≠ "" ∧
      rget [("context", "c"), ("question", "q")] "question" "" ≠ "") ∧
    chat_with_phi4_rag ⟨false⟩ (fun _ _ => Except.ok "fine") "q" "c" =
      ("Error: Azure AI Project client not initialized", []) ∧
    ask_question ⟨false⟩ (fun _ _ => Except.ok "fine")
        (Except.ok [("context", "c"), ("question", "q")]) =
      (⟨[("answer", JVal.s "Error: Azure AI Project client not initialized"),
         ("success", JVal.b true)], 200⟩, []) :=
  ⟨⟨rfl, by decide, by decide⟩,
   C4_uninitialized ⟨false⟩ (fun _ _ => Except.ok "fine")
     [("context", "c"), ("question", "q")] rfl (by decide) (by decide)⟩

/-- C5: for every non-empty context and question, the prompt built
before the remote call contains the literal context text, the literal
question text, and the designated insufficient-information fallback
instruction — in the function variant all three occur inside
`prompt_data`; in the process variant the message pair sent to the model
is `(system_prompt context, question)`, where `system_prompt` contains
the context and the fallback instruction and the user message is the
question itself. -/
theorem C5_prompt_contains (c q : String)
    (complete : String → String → Except String String)
    (hc : c ≠ "") (hq : q ≠ "") :
    containsStr (prompt_data c q) c ∧
    containsStr (prompt_data c q) q ∧
    containsStr (prompt_data c q) lambdaFallback ∧
    (chat_with_phi4_rag ⟨true⟩ complete q c).2 = [(system_prompt c, q)] ∧
    containsStr (system_prompt c) c ∧
    containsStr (system_prompt c) appFallback := by
  refine ⟨?_, ?_, ?_, ?_, ?_, ?_⟩
  · exact ⟨"Answer the question based only on the information provided between ##.\n" ++
      "Only answer the question if you can find relevant information in the context, otherwise, answer \"" ++
      lambdaFallback ++ "\".\n" ++ "#\n",
      "\n#\n\nQuestion: " ++ q ++ "\nAnswer:",
      by simp [prompt_data, String.append_assoc]⟩
  · exact ⟨"Answer the question based only on the information provided between ##.\n" ++
      "Only answer the question if you can find relevant information in the context, otherwise, answer \"" ++
      lambdaFallback ++ "\".\n" ++ "#\n" ++ c ++ "\n#\n\nQuestion: ",
      "\nAnswer:",
      by simp [prompt_data, String.append_assoc]⟩
  · exact ⟨"Answer the question based only on the information provided between ##.\n" ++
      "Only answer the question if you can find relevant information in the context, otherwise, answer \"",
      "\".\n" ++ "#\n" ++ c ++ "\n#\n\nQuestion: " ++ q ++ "\nAnswer:",
      by simp [prompt_data, String.append_assoc]⟩
  · cases h : complete (system_prompt c) q <;>
      simp [chat_with_phi4_rag, h]
  · exact ⟨"You are Phi-4, helpful fitness AI.\n" ++
      "We have some context from the user\x27s knowledge base: \n",
      "\n" ++ "Please use this context to help your answer. " ++
        appFallback ++ "\n",
      by simp [system_prompt, String.append_assoc]⟩
  · exact ⟨"You are Phi-4, helpful fitness AI.\n" ++
      "We have some context from the user\x27s knowledge base: \n" ++ c ++
      "\n" ++ "Please use this context to help your answer. ",
      "\n",
      by simp [system_prompt, String.append_assoc]⟩

/-- Witness for C5 at a concrete input. -/
theorem C5_prompt_contains_witness :
    (("The gym opens at 6am." : String) ≠ "" ∧
      ("What time does the gym open?" : String) ≠ "") ∧
    (containsStr (prompt_data "The gym opens at 6am."
        "What time does the gym open?") "The gym opens at 6am." ∧
     containsStr (prompt_data "The gym opens at 6am."
        "What time does the gym open?") "What time does the gym open?" ∧
     containsStr (prompt_data "The gym opens at 6am."
        "What time does the gym open?") lambdaFallback ∧
     (chat_with_phi4_rag ⟨true⟩ (fun _ _ => Except.ok "6am")
        "What time does the gym open?" "The gym opens at 6am.").2 =
       [(system_prompt "The gym opens at 6am.",
         "What time does the gym open?")] ∧
     containsStr (system_prompt "The gym opens at 6am.")
       "The gym opens at 6am." ∧
     containsStr (system_prompt "The gym opens at 6am.") appFallback) :=
  ⟨⟨by decide, by decide⟩,
   C5_prompt_contains "The gym opens at 6am." "What time does the gym open?"
     (fun _ _ => Except.ok "6am") (by decide) (by decide)⟩

/-- C6: an OPTIONS event is answered with status 200, the permissive
CORS preflight headers and an empty body, whatever the body holds and
whatever the parser and the collaborator would do — so no parsing and no
field validation takes place, and the collaborator is never invoked. -/
theorem C6_options_preflight
    (parse : String → Except String ReqObj)
    (invoke_model : String → Except String String)
    (event : LambdaEvent)
    (h : event.httpMethod = some "OPTIONS") :
    lambda_handler parse invoke_model event =
      (⟨200, preflightHeaders, BodyV.raw ""⟩, []) := by
  simp [lambda_handler, h]

/-- Witness for C6 at a concrete input whose body is not even JSON and
whose parser and collaborator are stubbed to fail. -/
theorem C6_options_preflight_witness :
    (⟨some "OPTIONS", some "this is not json"⟩ : LambdaEvent).httpMethod =
      some "OPTIONS" ∧
    lambda_handler (fun _ => Except.error "never parsed")
        (fun _ => Except.error "never called")
        ⟨some "OPTIONS", some "this is not json"⟩ =
      (⟨200, preflightHeaders, BodyV.raw ""⟩, []) :=
  ⟨rfl, C6_options_preflight (fun _ => Except.error "never parsed")
     (fun _ => Except.error "never called")
     ⟨some "OPTIONS", some "this is not json"⟩ rfl⟩

/-- C7: every response of the function-variant handler, on every path,
carries the `Access-Control-Allow-Origin` header. -/
theorem C7_cors_always
    (parse : String → Except String ReqObj)
    (invoke_model : String → Except String String)
    (event : LambdaEvent) :
    hfield (lambda_handler parse invoke_model event).1.headers
      "Access-Control-Allow-Origin" = some "*" := by
  unfold lambda_handler
  split
  · rfl
  · split
    · rfl
    · dsimp only
      split
      · rfl
      · split <;> rfl

/-- C9: every response of the ask-question operation, in either
variant, carries exactly one of the two body shapes — an answer-bearing
success body or an error-bearing failure body, never both fields and
never neither. -/
theorem C9_response_shape
    (st : AppState) (complete : String → String → Except String String)
    (parsed : Except String ReqObj)
    (parse : String → Except String ReqObj)
    (invoke_model : String → Except String String)
    (event : LambdaEvent)
    (hm : event.httpMethod ≠ some "OPTIONS") :
    exactlyOneShape (ask_question st complete parsed).1.body ∧
    ∃ o, (lambda_handler parse invoke_model event).1.body = BodyV.obj o ∧
      exactlyOneShape o := by
  constructor
  · unfold ask_question
    rcases parsed with e | data
    · exact Or.inr ⟨rfl, rfl⟩
    · dsimp only
      split
      · exact Or.inr ⟨rfl, rfl⟩
      · exact Or.inl ⟨rfl, rfl⟩
  · unfold lambda_handler
    rw [if_neg hm]
    cases hb : lambdaParsedBody parse event with
    | error e => exact ⟨[("error", JVal.s e)], rfl, Or.inr ⟨rfl, rfl⟩⟩
    | ok data =>
      dsimp only
      split
      · exact ⟨[("error", JVal.s "Missing context or question")], rfl,
          Or.inr ⟨rfl, rfl⟩⟩
      · cases hi : invoke_model (prompt_data (rget data "context" "")
            (rget data "question" "")) with
        | ok answer => exact ⟨[("answer", JVal.s (pyStrip answer))], rfl,
            Or.inl ⟨rfl, rfl⟩⟩
        | error e => exact ⟨[("error", JVal.s e)], rfl, Or.inr ⟨rfl, rfl⟩⟩

/-- Witness for C9 at a concrete input. -/
theorem C9_response_shape_witness :
    (⟨some "POST", some "x"⟩ : LambdaEvent).httpMethod ≠ some "OPTIONS" ∧
    (exactlyOneShape (ask_question ⟨true⟩ (fun _ _ => Except.ok "6am")
        (Except.ok [("context", "c"), ("question", "q")])).1.body ∧
     ∃ o, (lambda_handler
          (fun _ => Except.ok [("context", "c"), ("question", "q")])
          (fun _ => Except.ok "6am") ⟨some "POST", some "x"⟩).1.body =
        BodyV.obj o ∧ exactlyOneShape o) :=
  ⟨by decide,
   C9_response_shape ⟨true⟩ (fun _ _ => Except.ok "6am")
     (Except.ok [("context", "c"), ("question", "q")])
     (fun _ => Except.ok [("context", "c"), ("question", "q")])
     (fun _ => Except.ok "6am") ⟨some "POST", some "x"⟩ (by decide)⟩

/-- C10: a function-variant non-OPTIONS event whose `body` is present
but fails to parse as JSON yields a 500 result with an `error` field
(and CORS headers), not a 400 validation result, and no collaborator
call; an event with no `body` key at all parses as the empty object and
yields the 400 missing-field result. -/
theorem C10_invalid_json
    (parse : String → Except String ReqObj)
    (invoke_model : String → Except String String)
    (event1 event2 : LambdaEvent) (s e : String)
    (hm1 : event1.httpMethod ≠ some "OPTIONS")
    (hb1 : event1.body = some s)
    (hp : parse s = Except.error e)
    (hm2 : event2.httpMethod ≠ some "OPTIONS")
    (hb2 : event2.body = none) :
    lambda_handler parse invoke_model event1 =
      (⟨500, corsJsonHeaders, BodyV.obj [("error", JVal.s e)]⟩, []) ∧
    lambda_handler parse invoke_model event2 =
      (⟨400, corsJsonHeaders,
        BodyV.obj [("error", JVal.s "Missing context or question")]⟩, []) := by
  constructor
  · have hpb : lambdaParsedBody parse event1 = Except.error e := by
      simp [lambdaParsedBody, hb1, hp]
    simp [lambda_handler, if_neg hm1, hpb]
  · have hpb : lambdaParsedBody parse event2 = Except.ok [] := by
      simp [lambdaParsedBody, hb2]
    simp [lambda_handler, if_neg hm2, hpb, rget]

/-- Witness for C10 at concrete inputs: a POST whose body is not valid
JSON, and a POST with no body key. -/
theorem C10_invalid_json_witness :
    ((⟨some "POST", some "not json!"⟩ : LambdaEvent).httpMethod ≠
        some "OPTIONS" ∧
      (⟨some "POST", none⟩ : LambdaEvent).httpMethod ≠ some "OPTIONS") ∧
    lambda_handler (fun _ => Except.error "Expecting value")
        (fun _ => Except.ok "6am") ⟨some "POST", some "not json!"⟩ =
      (⟨500, corsJsonHeaders,
        BodyV.obj [("error", JVal.s "Expecting value")]⟩, []) ∧
    lambda_handler (fun _ => Except.error "Expecting value")
        (fun _ => Except.ok "6am") ⟨some "POST", none⟩ =
      (⟨400, corsJsonHeaders,
        BodyV.obj [("error", JVal.s "Missing context or question")]⟩, []) :=
  ⟨⟨by decide, by decide⟩,
   C10_invalid_json (fun _ => Except.error "Expecting value")
     (fun _ => Except.ok "6am") ⟨some "POST", some "not json!"⟩
     ⟨some "POST", none⟩ "not json!" "Expecting value"
     (by decide) rfl rfl (by decide) rfl⟩

/-- C8 is false as stated: when text extraction fails,
`extract_text_from_pdf` returns the error text as its ordinary result,
so `upload_pdf` answers 200 with `success: true`, the error message
inside the `text` field and no `error` field — not a 500 result. -/
theorem C8_counterexample :
    upload_pdf (fun _ => Except.error "EOF marker not found")
        (some ⟨"doc.pdf", [37, 80, 68, 70]⟩) =
      ⟨[("success", JVal.b true),
        ("text", JVal.s "Error extracting text: EOF marker not found")],
       200⟩ ∧
    (upload_pdf (fun _ => Except.error "EOF marker not found")
        (some ⟨"doc.pdf", [37, 80, 68, 70]⟩)).status ≠ 500 ∧
    jfield (upload_pdf (fun _ => Except.error "EOF marker not found")
        (some ⟨"doc.pdf", [37, 80, 68, 70]⟩)).body "error" = none := by
  decide

/-- C8 amended: for every upload of a non-empty-named `.pdf` file whose
text extraction fails, the response is a 200 success result whose `text`
field carries `"Error extracting text: " ++ msg` and whose body has no
`error` field; the handler's 500 path is unreachable from an extraction
failure. -/
theorem C8_extraction_failure
    (reader : List Nat → Except String (List String))
    (f : FileUpload) (e : String)
    (hname : f.filename ≠ "")
    (hallow : allowed_file f.filename = true)
    (hread : reader f.content = Except.error e) :
    upload_pdf reader (some f) =
      ⟨[("success", JVal.b true),
        ("text", JVal.s ("Error extracting text: " ++ e))], 200⟩ := by
  simp [upload_pdf, hname, hallow, extract_text_from_pdf, hread]

/-- Witness for the amended C8 at a concrete input. -/
theorem C8_extraction_failure_witness :
    ((⟨"doc.pdf", [37, 80, 68, 70]⟩ : FileUpload).filename ≠ "" ∧
      allowed_file (⟨"doc.pdf", [37, 80, 68, 70]⟩ : FileUpload).filename =
        true) ∧
    upload_pdf (fun _ => Except.error "EOF marker not found")
        (some ⟨"doc.pdf", [37, 80, 68, 70]⟩) =
      ⟨[("success", JVal.b true),
        ("text",
         JVal.s ("Error extracting text: " ++ "EOF marker not found"))],
       200⟩ :=
  ⟨⟨by decide, by decide⟩,
   C8_extraction_failure (fun _ => Except.error "EOF marker not found")
     ⟨"doc.pdf", [37, 80, 68, 70]⟩ "EOF marker not found"
     (by decide) (by decide) rfl⟩

